import Mathlib

/-!
Shallow embedding of the offline-intelligence memory-and-context core
(crates/offline-intelligence), covering the context builder, retrieval
planner, orchestrator plan execution, tier manager, KV-cache manager,
cache extractor, cache scorer, and the embedding store's cosine
similarity.

Modelling conventions:
* Rust `String`/`&str` is modelled as `List Char` (named `Str`).
  `str::len` is the UTF-8 byte count in Rust; we use the character
  count, which coincides on the ASCII text handled throughout and used
  in every concrete input below.
* Rust `f32` arithmetic is modelled exactly over `ℚ` (real-valued
  semantics of the floating-point expressions in the source), except
  cosine similarity, which needs a square root and is modelled over `ℝ`.
* `chrono` timestamps are modelled as integers at hour granularity
  (the only timestamp arithmetic in scope, `num_hours`, is exact then).
* Database state is modelled as in-memory lists; queries do not fail,
  matching an error-free run (every read error in the source is
  downgraded to an empty result or skipped anyway).
* Rust's stable `sort_by` is modelled by a stable insertion sort
  (`stableSortBy le`, where `le a b` means `a` may stay before `b`).
* Source field names ending in letters the verification toolchain
  reserves are renamed with a `_frac` suffix
  (`min_current_context_frac`, `max_summary_frac`, `compression_frac`).
-/

namespace OffIntel

/-- Rust string slices, as character lists. -/
abbrev Str := List Char

/-- Coerce a Lean string literal to the model's string type. -/
def strOf (s : String) : Str := s.toList

/-- Rust `str::to_lowercase` (ASCII fragment). -/
def lowerStr (s : Str) : Str := s.map Char.toLower

/-- Rust `str::len` (character count; equals byte count on ASCII). -/
def strLen (s : Str) : Nat := s.length

/-- `pat` is a prefix of `s` (helper for `containsCL`). -/
def isPrefixCL : Str → Str → Bool
  | [], _ => true
  | _ :: _, [] => false
  | p :: ps, c :: cs => p == c && isPrefixCL ps cs

/-- Rust `str::contains` (substring test). -/
def containsCL : Str → Str → Bool
  | [], pat => pat.isEmpty
  | c :: rest, pat => isPrefixCL pat (c :: rest) || containsCL rest pat

/-- Rust `str::starts_with`. -/
def startsWithCL (s pat : Str) : Bool := isPrefixCL pat s

/-- Helper for `splitWs`: accumulates the current word reversed. -/
def splitWsAux (cur : Str) : Str → List Str
  | [] => if cur.isEmpty then [] else [cur.reverse]
  | c :: rest =>
    if c.isWhitespace then
      if cur.isEmpty then splitWsAux [] rest else cur.reverse :: splitWsAux [] rest
    else splitWsAux (c :: cur) rest

/-- Rust `str::split_whitespace` (ASCII whitespace fragment). -/
def splitWs (s : Str) : List Str := splitWsAux [] s

/-- Tail of `dedupConsec`: drops elements equal to the previous kept one. -/
def dedupAux [DecidableEq α] (prev : α) : List α → List α
  | [] => []
  | b :: rest => if prev = b then dedupAux prev rest else b :: dedupAux b rest

/-- Rust `Vec::dedup`: removes consecutive duplicates, keeping the first. -/
def dedupConsec [DecidableEq α] : List α → List α
  | [] => []
  | a :: rest => a :: dedupAux a rest

/-- Rust `Vec::insert` at an index (index is at most the length at the call sites). -/
def insertAt (a : α) : Nat → List α → List α
  | 0, l => a :: l
  | _ + 1, [] => [a]
  | n + 1, x :: l => x :: insertAt a n l

/-- Stable insertion of `a` into `l` (before the first `b` with `le a b`). -/
def insertLe (le : α → α → Bool) (a : α) : List α → List α
  | [] => [a]
  | b :: l => if le a b then a :: b :: l else b :: insertLe le a l

/-- Stable sort modelling Rust's `sort_by`: `le a b` holds when the
comparator lets `a` stay in front of `b` (true on ties, for stability). -/
def stableSortBy (le : α → α → Bool) : List α → List α
  | [] => []
  | a :: l => insertLe le a (stableSortBy le l)

/-- Rust `[&str]::join(" ")`. -/
def joinSp : List Str → Str
  | [] => []
  | [w] => w
  | w :: rest => w ++ [' '] ++ joinSp rest

/-- Decimal rendering of a natural number (Rust `format!` of an integer). -/
def natToStr (n : Nat) : Str := Nat.toDigits 10 n

/-- Decimal rendering of an integer. -/
def intToStr (n : ℤ) : Str :=
  if n < 0 then '-' :: natToStr n.natAbs else natToStr n.natAbs

/-- Rust `Iterator::rposition`: index of the last element satisfying `p`. -/
def rposition (l : List α) (p : α → Bool) : Option Nat :=
  (l.reverse.findIdx? p).map (fun i => l.length - 1 - i)

/-- `memory.rs`: a chat message. -/
structure Message where
  role : Str
  content : Str
deriving DecidableEq

/-- `memory_db/schema.rs`: a persisted message row. -/
structure StoredMessage where
  id : ℤ
  session_id : Str
  message_index : ℤ
  role : Str
  content : Str
  tokens : ℤ
  timestamp : ℤ
  importance_score : ℚ
  embedding_generated : Bool
deriving DecidableEq

/-- `memory_db/schema.rs`: a stored summary row (`compression_ratio`
renamed `compression_frac`, `generated_at` at hour granularity). -/
structure DbSummary where
  id : ℤ
  session_id : Str
  message_range_start : ℤ
  message_range_end : ℤ
  summary_text : Str
  compression_frac : ℚ
  key_topics : List Str
  generated_at : ℤ
deriving DecidableEq

/-- Token estimate used throughout: `content.len() / 4`. -/
def tokenLen (m : Message) : Nat := strLen m.content / 4

/-- Sum of token estimates over a message list. -/
def tokenSum (l : List Message) : Nat := (l.map tokenLen).sum

/-! ## context_engine/context_builder.rs -/

/-- `ContextBuilderConfig` (`min_current_context_ratio` and
`max_summary_ratio` renamed with a `_frac` suffix). -/
structure ContextBuilderConfig where
  max_total_tokens : Nat
  min_current_context_frac : ℚ
  max_summary_frac : ℚ
  preserve_system_messages : Bool
  enable_detail_injection : Bool
  detail_injection_threshold : ℚ
deriving DecidableEq

/-- The `Default` impl of `ContextBuilderConfig`. -/
def contextBuilderConfigDefault : ContextBuilderConfig :=
  { max_total_tokens := 4000
    min_current_context_frac := 4/10
    max_summary_frac := 4/10
    preserve_system_messages := true
    enable_detail_injection := true
    detail_injection_threshold := 7/10 }

/-- `ContextBuilder::select_recent_messages`. -/
def select_recent_messages (cfg : ContextBuilderConfig) (messages : List Message) :
    List Message :=
  if messages = [] then []
  else
    let target : Nat := (⌈(messages.length : ℚ) * cfg.min_current_context_frac⌉).toNat
    let target : Nat := min (max target 1) messages.length
    messages.drop (messages.length - target)

/-- `ContextBuilder::prepare_context_with_tier1`. -/
def prepare_context_with_tier1 (cfg : ContextBuilderConfig) (current : List Message)
    (tier1 : Option (List Message)) : List Message :=
  (if cfg.preserve_system_messages then
      current.filter (fun m => m.role == strOf "system")
    else []) ++
  (match tier1 with
    | some t => t
    | none => select_recent_messages cfg current)

/-- `ContextBuilder::add_cross_session_context` (each of the first three
cross-session messages is inserted at index 1, so they end up reversed
after the bridge). -/
def add_cross_session_context (context : List Message)
    (cross : List StoredMessage) : List Message :=
  if cross = [] then context
  else
    let withBridge :=
      insertAt ⟨strOf "system", strOf "[Context from previous conversations]"⟩ 0 context
    (cross.take 3).foldl
      (fun ctx m =>
        insertAt ⟨m.role, strOf "[From earlier: " ++ m.content ++ strOf "]"⟩ 1 ctx)
      withBridge

/-- Inner loop of `ContextBuilder::extract_topics` over the word list of
one message (`i` ranges over `0..words.len().saturating_sub(2)`). -/
def topicsFromWords (words : List Str) : List Str :=
  (List.range (words.length - 2)).foldl
    (fun acc i =>
      let w := lowerStr (words.getD i [])
      let acc :=
        if w == strOf "about" || w == strOf "regarding" then
          let t := joinSp ((words.drop (i + 1)).take 3)
          if t = [] then acc else acc ++ [t]
        else acc
      if (["what", "how", "why", "when", "where", "who", "which"].map strOf).contains w then
        let t := joinSp ((words.drop (i + 1)).take 4)
        if t = [] then acc else acc ++ [t]
      else acc)
    []

/-- `ContextBuilder::extract_topics` (last five messages, most recent first). -/
def builder_extract_topics (messages : List Message) : List Str :=
  let collected :=
    (messages.reverse.take 5).foldl
      (fun acc m => acc ++ topicsFromWords (splitWs m.content)) []
  (dedupConsec collected).take 3

/-- `ContextBuilder::score_summary_relevance` (`now` and `generated_at`
in hours, so `age_hours` is exact). -/
def score_summary_relevance (s : DbSummary) (current_topics : List Str)
    (user_query : Option Str) (now : ℤ) : ℚ :=
  let score : ℚ :=
    (current_topics.countP
        (fun topic => s.key_topics.any
          (fun t => containsCL (lowerStr t) (lowerStr topic))) : ℚ) * (4/10)
  let score : ℚ := score +
    (match user_query with
      | some q =>
        (s.key_topics.countP (fun t => containsCL (lowerStr q) (lowerStr t)) : ℚ) * (5/10)
      | none => 0)
  let age_hours : ℤ := now - s.generated_at
  let score := score + 1 / (1 + (age_hours : ℚ) / 24) * (3/10)
  let score := score + min s.compression_frac 1 * (2/10)
  min score 1

/-- `ContextBuilder::summary_to_message`. -/
def summary_to_message (s : DbSummary) (current : List Message) : Message :=
  if current.length > 5 then
    ⟨strOf "system", strOf "[Summary of earlier conversation: " ++ s.summary_text ++ strOf "]"⟩
  else
    ⟨strOf "system", strOf "[Earlier: " ++ s.summary_text ++ strOf "]"⟩

/-- Greedy accumulation loop of `select_relevant_summaries`: skip scores
below 0.3, stop at the summary-token budget. -/
def summaryGreedy (maxSummaryTokens : Nat) (total : Nat) :
    List (DbSummary × ℚ) → List DbSummary
  | [] => []
  | (s, sc) :: rest =>
    if sc < 3/10 then summaryGreedy maxSummaryTokens total rest
    else
      let st := strLen s.summary_text / 4
      if total + st > maxSummaryTokens then []
      else s :: summaryGreedy maxSummaryTokens (total + st) rest

/-- `ContextBuilder::select_relevant_summaries`. -/
def select_relevant_summaries (cfg : ContextBuilderConfig) (now : ℤ)
    (summaries : List DbSummary) (current : List Message) (user_query : Option Str) :
    List DbSummary :=
  let current_topics := builder_extract_topics current
  let scored := summaries.map
    (fun s => (s, score_summary_relevance s current_topics user_query now))
  let sorted := stableSortBy (fun a b => decide (b.2 ≤ a.2)) scored
  let maxSummaryTokens : Nat :=
    (⌊(cfg.max_total_tokens : ℚ) * cfg.max_summary_frac⌋).toNat
  summaryGreedy maxSummaryTokens 0 sorted

/-- `ContextBuilder::add_summaries_to_context` (each chosen summary is
inserted at index 0, in selection order). -/
def add_summaries_to_context (cfg : ContextBuilderConfig) (now : ℤ)
    (context : List Message) (summaries : List DbSummary) (current : List Message)
    (user_query : Option Str) : List Message :=
  if summaries = [] then context
  else
    (select_relevant_summaries cfg now summaries current user_query).foldl
      (fun ctx s => insertAt (summary_to_message s current) 0 ctx) context

/-- `ContextBuilder::extract_detail_requests`. -/
def extract_detail_requests (user_query : Option Str) : List Str :=
  match user_query with
  | none => []
  | some query =>
    let words := splitWs (lowerStr query)
    let requests :=
      (List.range (words.length - 1)).foldl
        (fun acc i =>
          if (["the", "that", "those", "specific", "exact"].map strOf).contains
              (words.getD i []) then
            let potential := joinSp ((words.drop (i + 1)).take 3)
            if potential = [] then acc else acc ++ [potential]
          else acc)
        []
    dedupConsec requests

/-- Loop of `ContextBuilder::find_relevant_details`: collects matching
messages in order, stopping once three are collected. -/
def findRelevantAux (requests : List Str) : List StoredMessage → Nat → List StoredMessage
  | [], _ => []
  | m :: rest, cnt =>
    if requests.any (fun r => containsCL (lowerStr m.content) (lowerStr r)) then
      if cnt + 1 ≥ 3 then [m]
      else m :: findRelevantAux requests rest (cnt + 1)
    else findRelevantAux requests rest cnt

/-- `ContextBuilder::find_relevant_details`. -/
def find_relevant_details (messages : List StoredMessage) (requests : List Str) :
    List StoredMessage :=
  findRelevantAux requests messages 0

/-- `ContextBuilder::add_specific_details`. -/
def add_specific_details (cfg : ContextBuilderConfig) (context : List Message)
    (full_messages : List StoredMessage) (user_query : Option Str) : List Message :=
  if ¬cfg.enable_detail_injection ∨ full_messages = [] then context
  else
    let requests := extract_detail_requests user_query
    if requests = [] then context
    else
      (find_relevant_details full_messages requests).foldl
        (fun ctx m =>
          let dm : Message := ⟨m.role, strOf "[Earlier detail: " ++ m.content ++ strOf "]"⟩
          match rposition ctx (fun x => x.role == strOf "user") with
          | some pos => insertAt dm pos ctx
          | none => insertAt dm 0 ctx)
        context

/-- Loop of `ContextBuilder::trim_to_token_limit`: a message whose
inclusion would exceed the budget is dropped, the accumulator advances
only on kept messages (removal by descending index in the source equals
this in-order filter). -/
def trimAux (maxTokens : Nat) (total : Nat) : List Message → List Message
  | [] => []
  | m :: rest =>
    if total + tokenLen m > maxTokens then trimAux maxTokens total rest
    else m :: trimAux maxTokens (total + tokenLen m) rest

/-- `ContextBuilder::trim_to_token_limit`. -/
def trim_to_token_limit (cfg : ContextBuilderConfig) (context : List Message) :
    List Message :=
  trimAux cfg.max_total_tokens 0 context

/-- The bridge-message predicate of `find_transition_point`. -/
def isTransitionBridge (m : Message) : Bool :=
  m.role == strOf "system" &&
    (startsWithCL m.content (strOf "[Summary") ||
     startsWithCL m.content (strOf "[Earlier:") ||
     startsWithCL m.content (strOf "[Context"))

/-- `ContextBuilder::find_transition_point` (returns the length when
every message is a bridge, like the source loop). -/
def find_transition_point (context : List Message) : Nat :=
  context.findIdx (fun m => ¬isTransitionBridge m)

/-- Content of the transition bridge message for `n` preceding summaries. -/
def bridgeText (n : Nat) : Str :=
  strOf "[Continuing from earlier conversation with " ++ natToStr n ++
    strOf " summary" ++ (if n > 1 then strOf "s" else []) ++ strOf "]"

/-- `ContextBuilder::add_bridging`. -/
def add_bridging (cfg : ContextBuilderConfig) (context : List Message)
    (summaries : Option (List DbSummary)) : List Message :=
  if ¬cfg.enable_detail_injection ∨ context.length < 2 ∨ summaries = none then context
  else
    let idx := find_transition_point context
    if 0 < idx ∧ idx < context.length then
      let summary_count :=
        (context.take idx).countP
          (fun m => m.role == strOf "system" &&
            (startsWithCL m.content (strOf "[Summary") ||
             startsWithCL m.content (strOf "[Earlier:")))
      if summary_count > 0 then
        insertAt ⟨strOf "system", bridgeText summary_count⟩ idx context
      else context
    else context

/-- `ContextBuilder::build_context`: the full pipeline. -/
def build_context (cfg : ContextBuilderConfig) (now : ℤ) (current : List Message)
    (tier1 : Option (List Message)) (tier2 : Option (List DbSummary))
    (tier3 : Option (List StoredMessage)) (cross : Option (List StoredMessage))
    (user_query : Option Str) : List Message :=
  let c := prepare_context_with_tier1 cfg current tier1
  let c := match cross with
    | some cm => add_cross_session_context c cm
    | none => c
  let c := match tier2 with
    | some ss => add_summaries_to_context cfg now c ss current user_query
    | none => c
  let c := match tier3 with
    | some fm => add_specific_details cfg c fm user_query
    | none => c
  let c := trim_to_token_limit cfg c
  add_bridging cfg c tier2

/-! ## context_engine/retrieval_planner.rs -/

/-- `RetrievalPlan`. -/
structure RetrievalPlan where
  needs_retrieval : Bool
  use_tier1 : Bool
  use_tier2 : Bool
  use_tier3 : Bool
  cross_session_search : Bool
  semantic_search : Bool
  keyword_search : Bool
  temporal_search : Bool
  max_messages : Nat
  max_tokens : Nat
  target_compression : ℚ
  search_topics : List Str
deriving DecidableEq

/-- The `Default` impl of `RetrievalPlan`. -/
def retrievalPlanDefault : RetrievalPlan :=
  { needs_retrieval := false
    use_tier1 := true
    use_tier2 := false
    use_tier3 := false
    cross_session_search := false
    semantic_search := false
    keyword_search := false
    temporal_search := false
    max_messages := 100
    max_tokens := 4000
    target_compression := 3/10
    search_topics := [] }

/-- `RetrievalPlanner::needs_retrieval` (note the early `false` for at
most one message, regardless of its size). -/
def planner_needs_retrieval (messages : List Message) (max_tokens : Nat) : Bool :=
  if messages.length ≤ 1 then false
  else decide ((messages.map tokenLen).sum > max_tokens)

/-- `RetrievalPlanner::is_cross_session_query`. -/
def is_cross_session_query (query : Str) : Bool :=
  let ql := lowerStr query
  (["previously", "before", "earlier", "last time", "yesterday",
    "do you remember", "we discussed", "we talked about",
    "what did we talk", "remember when", "recall"].map strOf).any
    (fun p => containsCL ql p)

/-- `RetrievalPlanner::has_past_references_in_text`. -/
def has_past_references_in_text (text : Str) : Bool :=
  let tl := lowerStr text
  (["earlier", "before", "previous", "last time", "yesterday",
    "we discussed", "we talked about", "remember", "recall",
    "did we talk", "have we discussed", "what did we say",
    "what was said", "mentioned earlier", "previously mentioned"].map strOf).any
    (fun p => containsCL tl p)

/-- `RetrievalPlanner::extract_topics_from_query`. -/
def extract_topics_from_query (query : Str) : List Str :=
  let words := splitWs query
  if words.length < 3 then [query]
  else [joinSp (words.drop (words.length - 4))]

/-- `RetrievalPlanner::extract_topics` (last three user messages, most
recent first; same word scan as the builder but without `which`). -/
def plannerTopicsFromWords (words : List Str) : List Str :=
  (List.range (words.length - 2)).foldl
    (fun acc i =>
      let w := lowerStr (words.getD i [])
      let acc :=
        if w == strOf "about" || w == strOf "regarding" then
          let t := joinSp ((words.drop (i + 1)).take 3)
          if t = [] then acc else acc ++ [t]
        else acc
      if (["what", "how", "why", "when", "where", "who"].map strOf).contains w then
        let t := joinSp ((words.drop (i + 1)).take 4)
        if t = [] then acc else acc ++ [t]
      else acc)
    []

/-- `RetrievalPlanner::extract_topics`. -/
def planner_extract_topics (messages : List Message) : List Str :=
  let collected :=
    ((messages.reverse.filter (fun m => m.role == strOf "user")).take 3).foldl
      (fun acc m => acc ++ plannerTopicsFromWords (splitWs m.content)) []
  (dedupConsec collected).take 3

/-- `RetrievalPlanner::has_past_references_in_messages` (last five). -/
def has_past_references_in_messages (messages : List Message) : Bool :=
  (messages.reverse.take 5).any
    (fun m =>
      (["earlier", "before", "previous", "last time", "yesterday",
        "we discussed", "we talked about", "remember", "recall"].map strOf).any
        (fun p => containsCL (lowerStr m.content) p))

/-- `RetrievalPlanner::requires_specific_details`. -/
def requires_specific_details (query : Str) : Bool :=
  let ql := lowerStr query
  (["exactly", "specifically", "in detail", "step by step",
    "the code", "the number", "the date", "the name",
    "show me", "give me", "tell me"].map strOf).any
    (fun p => containsCL ql p)

/-- Rust `str::split(&[',', ';', '&'])` piece count: one more than the
number of separator characters. -/
def clauseCount (query : Str) : Nat :=
  (query.countP (fun c => c == ',' || c == ';' || c == '&')) + 1

/-- `RetrievalPlanner::assess_query_complexity`. -/
def assess_query_complexity (query : Str) : ℚ :=
  let words := splitWs query
  if words.length < 3 then 2/10
  else
    let complexity : ℚ := min (words.length : ℚ) 50 / 100
    let complexity := complexity + min (clauseCount query : ℚ) 5 / 10
    let complexity := complexity +
      (((["code", "function", "algorithm", "parameter", "variable"].map strOf).filter
          (fun t => containsCL (lowerStr query) t)).length : ℚ) * (2/10)
    min complexity 1

/-- `RetrievalPlanner::has_temporal_references`. -/
def has_temporal_references (query : Str) : Bool :=
  let ql := lowerStr query
  (["yesterday", "today", "tomorrow", "last week", "last month",
    "earlier", "before", "previously", "in the past"].map strOf).any
    (fun p => containsCL ql p)

/-- `RetrievalPlanner::create_plan`, with the two database probes of
`plan_tier_usage` (`has_summaries`, `has_db_messages`) passed in as the
state they would read. -/
def create_plan (current_messages : List Message) (max_context_tokens : Nat)
    (user_query : Option Str) (has_past_refs : Bool)
    (has_summaries : Bool) (has_db_messages : Bool) : RetrievalPlan :=
  let plan := { retrievalPlanDefault with max_tokens := max_context_tokens }
  let plan :=
    match user_query with
    | some q =>
      if is_cross_session_query q then
        { plan with needs_retrieval := true, cross_session_search := true,
                    search_topics := extract_topics_from_query q }
      else plan
    | none => plan
  let has_past_references_in_query :=
    (match user_query with
      | some q => has_past_references_in_text q
      | none => false) || has_past_refs
  if ¬plan.needs_retrieval ∧
      ¬planner_needs_retrieval current_messages max_context_tokens ∧
      ¬has_past_references_in_query then
    plan
  else
    let plan := { plan with needs_retrieval := true, use_tier1 := true }
    -- analyze_conversation
    let extracted_topics := planner_extract_topics current_messages
    let has_past_references := has_past_references_in_messages current_messages
    let specific_details :=
      match user_query with
      | some q => requires_specific_details q
      | none => false
    let query_complexity : ℚ :=
      match user_query with
      | some q => assess_query_complexity q
      | none => 0
    let conversation_length := current_messages.length
    -- plan_tier_usage
    let plan := { plan with use_tier2 := has_summaries }
    let use3 := (has_past_references_in_query && has_db_messages) ||
      (specific_details && has_db_messages) ||
      plan.cross_session_search ||
      (decide (conversation_length > 30) && has_db_messages) ||
      (has_past_references && has_db_messages)
    let plan := { plan with use_tier3 := use3 }
    let plan :=
      if conversation_length > 100 then { plan with target_compression := 2/10 }
      else plan
    -- plan_search_strategies
    let plan :=
      { plan with
        semantic_search :=
          decide (query_complexity > 5/10) ||
            (extracted_topics.isEmpty && !plan.cross_session_search)
        keyword_search :=
          specific_details || has_past_references || plan.cross_session_search ||
            !extracted_topics.isEmpty
        temporal_search :=
          match user_query with
          | some q => has_temporal_references q
          | none => has_temporal_references [] }
    let plan :=
      if plan.search_topics.isEmpty then { plan with search_topics := extracted_topics }
      else plan
    -- adjust_limits
    let current_tokens := (current_messages.map tokenLen).sum
    let available := max_context_tokens - current_tokens
    { plan with max_messages := min (max (available / 50) 10) 100 }

/-! ## context_engine/tier_manager.rs

The per-session slice of the message store is modelled as the list of
its `StoredMessage` rows in `message_index` order (the order
`get_session_messages` returns with offset 0). -/

/-- `TierManager::search_tier3_content`: reads the first 1000 rows,
case-insensitive substring filter, first `limit` matches. -/
def search_tier3_content (store : List StoredMessage) (query : Str) (limit : Nat) :
    List StoredMessage :=
  ((store.take 1000).filter
      (fun m => containsCL (lowerStr m.content) (lowerStr query))).take limit

/-- `TierManager::store_tier3_content`. The database-assigned row ids of
the batch start at `nextId`; `enable` is
`TierManagerConfig::enable_tier3_persistence`. Timestamps of the new
rows are the insertion time `now`. -/
def store_tier3_content (enable : Bool) (store : List StoredMessage)
    (messages : List Message) (session_id : Str) (nextId : ℤ) (now : ℤ) :
    List StoredMessage :=
  if ¬enable ∨ messages = [] then store
  else
    let existing := store.take 10000
    let new_messages := messages.filter
      (fun nm => !existing.any (fun e => e.content == nm.content && e.role == nm.role))
    if new_messages = [] then store
    else
      let start_index : ℤ := (existing.length : ℤ)
      store ++ (List.range new_messages.length).filterMap
        (fun off => (new_messages.get? off).map
          (fun m =>
            { id := nextId + off
              session_id := session_id
              message_index := start_index + off
              role := m.role
              content := m.content
              tokens := ((strLen m.content / 4 : Nat) : ℤ)
              timestamp := now
              importance_score := 5/10
              embedding_generated := false : StoredMessage }))

/-! ## context_engine/orchestrator.rs (tier-3 block of execute_retrieval_plan) -/

/-- The tier-3 part of `ContextOrchestrator::execute_retrieval_plan`,
over the session's message store and the already-materialized semantic
result set. Returns the tier-3 content together with the list of
`(topic, limit_per_topic)` queries actually issued to the tier manager.
The backing store is an in-memory list, so a search never returns an
error and the source loop `break`s after its first iteration. -/
def execute_plan_tier3 (store : List StoredMessage)
    (semantic_results : List StoredMessage) (plan : RetrievalPlan) :
    Option (List StoredMessage) × List (Str × Nat) :=
  if plan.use_tier3 then
    if plan.keyword_search && !plan.search_topics.isEmpty then
      match plan.search_topics with
      | [] => (none, [])
      | topic :: _ =>
        let limit_per_topic := plan.max_messages / max plan.search_topics.length 1
        let results := search_tier3_content store topic limit_per_topic
        let semantic_ids := semantic_results.map (fun m => m.id)
        let merged := semantic_results ++
          results.filter (fun m => ¬semantic_ids.contains m.id)
        (some merged, [(topic, limit_per_topic)])
    else
      if !semantic_results.isEmpty then (some semantic_results, [])
      else (some (store.take plan.max_messages), [])
  else
    if !semantic_results.isEmpty then (some semantic_results, []) else (none, [])

/-! ## cache_management: data model and configuration -/

/-- `cache_extractor.rs`: `CacheEntryType`. -/
inductive CacheEntryType where
  | AttentionKey
  | AttentionValue
  | FFNKey
  | FFNValue
  | SystemPrompt
  | CodeBlock
  | ImportantConcept
  | Question
  | NumericData
  | Custom (name : Str)
deriving DecidableEq

/-- `cache_extractor.rs`: `KVEntry` (`key_data`/`value_data` byte
buffers modelled as text; `value_data.len()` is then `strLen`). -/
structure KVEntry where
  key_hash : Str
  key_data : Option Str
  value_data : Str
  key_type : Str
  layer_index : ℤ
  head_index : Option ℤ
  importance_score : ℚ
  access_count : ℤ
  last_accessed : ℤ
deriving DecidableEq

/-- `cache_extractor.rs`: `ExtractedCacheEntry`. -/
structure ExtractedCacheEntry where
  entry_type : CacheEntryType
  key_hash : Str
  key_data : Option Str
  value_data : Str
  layer_index : ℤ
  head_index : Option ℤ
  importance_score : ℚ
  access_count : ℤ
  keywords : List Str
deriving DecidableEq

/-- `cache_extractor.rs`: `CacheExtractorConfig`. -/
structure CacheExtractorConfig where
  min_value_size : Nat
  max_value_size : Nat
  extract_keywords : Bool
  keyword_min_length : Nat
deriving DecidableEq

/-- The `Default` impl of `CacheExtractorConfig`. -/
def cacheExtractorConfigDefault : CacheExtractorConfig :=
  { min_value_size := 10, max_value_size := 10000,
    extract_keywords := true, keyword_min_length := 3 }

/-- `cache_config.rs`: the `KVCacheConfig` knobs the claims touch
(snapshot and retrieval-strategy knobs are not consulted by the
functions modelled here). -/
structure KVCacheConfig where
  enabled : Bool
  retrieval_enabled : Bool
  clear_after_conversations : Nat
  memory_threshold_percent : ℚ
  min_importance_to_preserve : ℚ
  preserve_system_prompts : Bool
  preserve_code_entries : Bool
deriving DecidableEq

/-- The `Default` impl of `KVCacheConfig` (modelled fields). -/
def kvCacheConfigDefault : KVCacheConfig :=
  { enabled := true
    retrieval_enabled := true
    clear_after_conversations := 16
    memory_threshold_percent := 6/10
    min_importance_to_preserve := 7/10
    preserve_system_prompts := true
    preserve_code_entries := true }

/-! ## cache_management/cache_scorer.rs -/

/-- `cache_scorer.rs`: `CacheScoringConfig`. -/
structure CacheScoringConfig where
  recency_weight : ℚ
  access_count_weight : ℚ
  key_pattern_weight : ℚ
  layer_weight : ℚ
  head_weight : ℚ
  value_size_weight : ℚ
  engagement_decay : ℚ
  min_engagement : ℚ
  max_engagement : ℚ
deriving DecidableEq

/-- The `Default` impl of `CacheScoringConfig`. -/
def cacheScoringConfigDefault : CacheScoringConfig :=
  { recency_weight := 3/10
    access_count_weight := 2/10
    key_pattern_weight := 25/100
    layer_weight := 1/10
    head_weight := 5/100
    value_size_weight := 1/10
    engagement_decay := 95/100
    min_engagement := 1/10
    max_engagement := 1 }

/-- Stop-word list of `CacheEntryScorer::is_stop_word` (the longer one,
with the demonstrative pronouns; 39 ASCII codepoints spell the
apostrophe entry). -/
def scorerStopWords : List Str :=
  (["the", "a", "an", "and", "or", "but", "in", "on", "at", "to", "for",
    "of", "with", "by", "is", "am", "are", "was", "were", "be", "been",
    "being", "have", "has", "had", "do", "does", "did", "will", "would",
    "shall", "should", "may", "might", "must", "can", "could", "this",
    "that", "these", "those", "it", "its"].map strOf) ++
  [['i', 't', Char.ofNat 39, 's']]

/-- `CacheEntryScorer::extract_keywords` (words over three characters,
lowercased, non-stop, consecutive dedup, first five). -/
def scorer_extract_keywords (key_data : Option Str) : List Str :=
  match key_data with
  | none => []
  | some s =>
    let kws := ((splitWs s).filter (fun w => w.length > 3)).foldl
      (fun acc w =>
        let wl := lowerStr w
        if scorerStopWords.contains wl then acc else acc ++ [wl])
      []
    (dedupConsec kws).take 5

/-- `CacheEntryScorer::update_engagement`. The `HashMap` is an
association list with unique keys; `Entry::or_insert` appends a fresh
binding at the end. -/
def update_engagement (cfg : CacheScoringConfig) (m : List (Str × ℚ))
    (key_hash : Str) (was_retrieved : Bool) : List (Str × ℚ) :=
  let inc : ℚ := if was_retrieved then 15/100 else 5/100
  let m' := if m.any (fun kv => kv.1 == key_hash) then m else m ++ [(key_hash, 3/10)]
  m'.map (fun kv =>
    if kv.1 == key_hash then
      (kv.1, max (min (kv.2 + inc) cfg.max_engagement) cfg.min_engagement)
    else
      (kv.1, max (kv.2 * cfg.engagement_decay) cfg.min_engagement))

/-- Engagement value stored for a key (`HashMap::get`). -/
def engagementOf (m : List (Str × ℚ)) (key_hash : Str) : Option ℚ :=
  (m.find? (fun kv => kv.1 == key_hash)).map (fun kv => kv.2)

/-! ## cache_management/cache_extractor.rs

`classify_entry` scans regex patterns stored in a `HashMap`, whose
iteration order is unspecified; the classifier is therefore a parameter
`classify` of the functions below (any execution's classifier is an
admissible instantiation). -/

/-- `CacheExtractor::extract_entries`: size-window filter, classify,
extract keywords, sort by importance descending (`sort_by` is stable;
the comparator treats `None` from `partial_cmp` as equal, which cannot
arise over `ℚ`). -/
def extract_entries (cfg : CacheExtractorConfig)
    (classify : KVEntry → CacheEntryType) (entries : List KVEntry) :
    List ExtractedCacheEntry :=
  let extracted := (entries.filter
      (fun e => decide (cfg.min_value_size ≤ strLen e.value_data) &&
                decide (strLen e.value_data ≤ cfg.max_value_size))).map
    (fun e =>
      { entry_type := classify e
        key_hash := e.key_hash
        key_data := e.key_data
        value_data := e.value_data
        layer_index := e.layer_index
        head_index := e.head_index
        importance_score := e.importance_score
        access_count := e.access_count
        keywords := if cfg.extract_keywords then scorer_extract_keywords e.key_data
                    else [] : ExtractedCacheEntry })
  stableSortBy (fun a b => decide (b.importance_score ≤ a.importance_score)) extracted

/-- `CacheExtractor::filter_preserved_entries`. -/
def filter_preserved_entries (entries : List ExtractedCacheEntry)
    (min_importance : ℚ) (preserve_system preserve_code : Bool) :
    List ExtractedCacheEntry :=
  entries.filter (fun e =>
    if e.importance_score < min_importance then false
    else
      match e.entry_type with
      | CacheEntryType.SystemPrompt =>
        if preserve_system then true else decide (e.importance_score ≥ min_importance * (12/10))
      | CacheEntryType.CodeBlock =>
        if preserve_code then true else decide (e.importance_score ≥ min_importance * (12/10))
      | CacheEntryType.ImportantConcept => true
      | CacheEntryType.AttentionKey => true
      | CacheEntryType.AttentionValue => true
      | _ => decide (e.importance_score ≥ min_importance * (12/10)))

/-! ## cache_management/cache_manager.rs -/

/-- `ClearReason`. -/
inductive ClearReason where
  | ConversationLimit
  | MemoryThreshold
  | Manual
  | ErrorRecovery
deriving DecidableEq

/-- `KVCacheManager::should_clear_by_conversation`. -/
def should_clear_by_conversation (cfg : KVCacheConfig) (conversation_count : Nat) : Bool :=
  decide (conversation_count ≥ cfg.clear_after_conversations)

/-- `KVCacheManager::should_clear_by_memory` (note: `config.enabled` is
not consulted). -/
def should_clear_by_memory (cfg : KVCacheConfig) (current_usage_bytes : Nat)
    (max_memory_bytes : Nat) : Bool :=
  if max_memory_bytes = 0 then false
  else decide ((current_usage_bytes : ℚ) / (max_memory_bytes : ℚ) ≥
    cfg.memory_threshold_percent)

/-- The clear decision of `KVCacheManager::process_conversation`:
`conversation_count` is the stored per-session count before this call
(the source tests `current_conversation_count + 1`); the result is the
`ClearReason` of the clear performed, if any. -/
def process_clear_decision (cfg : KVCacheConfig) (conversation_count : Nat)
    (current_cache_size_bytes max_cache_size_bytes : Nat) : Option ClearReason :=
  let byConversation := should_clear_by_conversation cfg (conversation_count + 1)
  let byMemory := should_clear_by_memory cfg current_cache_size_bytes max_cache_size_bytes
  if byConversation || byMemory then
    some (if byConversation then ClearReason.ConversationLimit
          else ClearReason.MemoryThreshold)
  else none

/-- The `entries_to_keep` component of `KVCacheManager::clear_cache`:
extraction followed by preservation filtering under the manager's
configuration. -/
def clear_entries_to_keep (cfg : KVCacheConfig) (ecfg : CacheExtractorConfig)
    (classify : KVEntry → CacheEntryType) (current_entries : List KVEntry) :
    List ExtractedCacheEntry :=
  filter_preserved_entries (extract_entries ecfg classify current_entries)
    cfg.min_importance_to_preserve cfg.preserve_system_prompts cfg.preserve_code_entries

/-- Stop-word list of `KVCacheManager::is_stop_word` (shorter than the
scorer's list). -/
def managerStopWords : List Str :=
  ["the", "a", "an", "and", "or", "but", "in", "on", "at", "to", "for",
   "of", "with", "by", "is", "am", "are", "was", "were", "be", "been",
   "being", "have", "has", "had", "do", "does", "did", "will", "would",
   "shall", "should", "may", "might", "must", "can", "could"].map strOf

/-- `KVCacheManager::extract_keywords` (no dedup, no truncation). -/
def manager_extract_keywords (text : Str) : List Str :=
  (((splitWs text).filter (fun w => w.length > 3)).map lowerStr).filter
    (fun w => ¬managerStopWords.contains w)

/-- `KVCacheManager::calculate_keyword_similarity`. -/
def calculate_keyword_similarity (entry : KVEntry) (keywords : List Str) : ℚ :=
  if keywords = [] then 0
  else
    let entry_keywords := scorer_extract_keywords entry.key_data
    if entry_keywords = [] then 0
    else
      let matchCount := keywords.countP (fun kw =>
        entry_keywords.any (fun ek =>
          containsCL (lowerStr ek) (lowerStr kw) || containsCL (lowerStr kw) (lowerStr ek)))
      (matchCount : ℚ) / (keywords.length : ℚ)

/-- `KVCacheManager::get_matching_keywords`. -/
def get_matching_keywords (entry : KVEntry) (keywords : List Str) : List Str :=
  let entry_keywords := scorer_extract_keywords entry.key_data
  keywords.filter (fun kw =>
    entry_keywords.any (fun ek =>
      containsCL (lowerStr ek) (lowerStr kw) || containsCL (lowerStr kw) (lowerStr ek)))

/-- `RetrievedEntry` (the wall-clock `retrieval_time` field is omitted). -/
structure RetrievedEntry where
  entry : KVEntry
  similarity_score : ℚ
  source_tier : Nat
  matched_keywords : List Str
deriving DecidableEq

/-- `KVCacheManager::search_tier1`: live entries above threshold 0.3,
sorted by similarity then access count (both descending), first ten. -/
def search_tier1 (entries : List KVEntry) (keywords : List Str) : List RetrievedEntry :=
  let results := entries.filterMap (fun e =>
    let s := calculate_keyword_similarity e keywords
    if s > 3/10 then
      some { entry := e, similarity_score := s, source_tier := 1,
             matched_keywords := get_matching_keywords e keywords : RetrievedEntry }
    else none)
  (stableSortBy
      (fun a b => decide (b.similarity_score < a.similarity_score) ||
        (decide (a.similarity_score = b.similarity_score) &&
         decide (b.entry.access_count ≤ a.entry.access_count)))
      results).take 10

/-- `KVCacheManager::search_tier2` over the entry lists of the session's
recent snapshots (`get_recent_kv_snapshots(session, 3)` returns at most
three, most recent first): threshold 0.4, sorted descending, first 15. -/
def search_tier2 (snapshots : List (List KVEntry)) (keywords : List Str) :
    List RetrievedEntry :=
  let all_results := (snapshots.take 3).foldl
    (fun acc entries =>
      acc ++ entries.filterMap (fun e =>
        let s := calculate_keyword_similarity e keywords
        if s > 4/10 then
          some { entry := e, similarity_score := s, source_tier := 2,
                 matched_keywords := get_matching_keywords e keywords : RetrievedEntry }
        else none))
    []
  (stableSortBy (fun a b => decide (b.similarity_score ≤ a.similarity_score))
      all_results).take 15

/-- `ConversationStore::search_messages_by_keywords`: rows whose
lowercased content contains every keyword, newest first, first
`limit`. -/
def search_messages_by_keywords (store : List StoredMessage)
    (keywords : List Str) (limit : Nat) : List StoredMessage :=
  let matching := store.filter (fun m =>
    keywords.all (fun kw => containsCL (lowerStr m.content) (lowerStr kw)))
  (stableSortBy (fun a b => decide (b.timestamp ≤ a.timestamp)) matching).take limit

/-- `KVCacheManager::search_tier3`: persisted messages wrapped in
synthetic `"message"` KV entries, threshold 0.5, sorted by recency then
similarity, first ten. -/
def search_tier3 (store : List StoredMessage) (keywords : List Str) :
    List RetrievedEntry :=
  if keywords = [] then []
  else
    let messages := search_messages_by_keywords store keywords 20
    let results := messages.filterMap (fun m =>
      let e : KVEntry :=
        { key_hash := strOf "msg_" ++ intToStr m.id
          key_data := some m.content
          value_data := m.content
          key_type := strOf "message"
          layer_index := 0
          head_index := none
          importance_score := m.importance_score
          access_count := 1
          last_accessed := m.timestamp }
      let s := calculate_keyword_similarity e keywords
      if s > 1/2 then
        some { entry := e, similarity_score := s, source_tier := 3,
               matched_keywords := keywords : RetrievedEntry }
      else none)
    (stableSortBy
        (fun a b => decide (b.entry.last_accessed < a.entry.last_accessed) ||
          (decide (a.entry.last_accessed = b.entry.last_accessed) &&
           decide (b.similarity_score ≤ a.similarity_score)))
        results).take 10

/-- `KVCacheManager::retrieve_context`: the tiered search cascade.
Returns the merged, sorted, capped result list together with
`searched_tiers` (engagement updates and the bridge message are
downstream of both and not needed by the claims). -/
def retrieve_context (current_cache_entries : List KVEntry)
    (snapshots : List (List KVEntry)) (store : List StoredMessage) (query : Str) :
    List RetrievedEntry × List Nat :=
  let keywords := manager_extract_keywords query
  let (results, searched) :=
    if ¬current_cache_entries.isEmpty then
      (search_tier1 current_cache_entries keywords, [1])
    else (([] : List RetrievedEntry), ([] : List Nat))
  let (results, searched) :=
    if results.length < 5 then
      (results ++ search_tier2 snapshots keywords, searched ++ [2])
    else (results, searched)
  let (results, searched) :=
    if results.length < 3 then
      (results ++ search_tier3 store keywords, searched ++ [3])
    else (results, searched)
  ((stableSortBy (fun a b => decide (b.similarity_score ≤ a.similarity_score))
      results).take 20, searched)

/-! ## memory_db/embedding_store.rs -/

/-- `cosine_similarity` over the real-valued semantics of `f32`. -/
noncomputable def cosine_similarity (a b : List ℝ) : ℝ :=
  if a.length ≠ b.length then 0
  else
    let dot := ((a.zip b).map (fun p => p.1 * p.2)).sum
    let norm_a := Real.sqrt ((a.map (fun x => x * x)).sum)
    let norm_b := Real.sqrt ((b.map (fun x => x * x)).sum)
    if norm_a = 0 ∨ norm_b = 0 then 0 else dot / (norm_a * norm_b)

/-! ## Harness and concrete instances used by the theorems below -/

/-- A sequence of `update_engagement` calls starting from the empty
engagement map. -/
def runEngagement (cfg : CacheScoringConfig) (ops : List (Str × Bool)) :
    List (Str × ℚ) :=
  ops.foldl (fun m op => update_engagement cfg m op.1 op.2) []

/-- Builder configuration with a 30-token budget (all other knobs at
their defaults). -/
def cexBuilderCfg : ContextBuilderConfig :=
  { contextBuilderConfigDefault with max_total_tokens := 30 }

/-- A 72-character user message (18 estimated tokens). -/
def cexUserMsg : Message :=
  ⟨strOf "user",
   strOf "aaaaaaaaaaaaaaaaaaaaaaaaaaaaaaaaaaaaaaaaaaaaaaaaaaaaaaaaaaaaaaaaaaaaaaaa"⟩

/-- A stored summary with a 37-character text (9 estimated tokens; 12
once wrapped as `[Earlier: …]`), key topic `budget`, generated at the
query time. -/
def cexSummary : DbSummary :=
  { id := 1
    session_id := strOf "s1"
    message_range_start := 0
    message_range_end := 10
    summary_text := strOf "aaaaaaaaaaaaaaaaaaaaaaaaaaaaaaaaaaaaa"
    compression_frac := 0
    key_topics := [strOf "budget"]
    generated_at := 0 }

/-- Value of `classify_entry` on `cexKVEntry` below: its key data
`"you are helping here"` matches the system-prompt regex
(`(?i)(system|instruction|prompt|assistant_role|you are|your role)`)
and none of the other extractor patterns, so every pattern-iteration
order of the source's `HashMap` classifies it as `SystemPrompt`. -/
def classifySystemOnly : KVEntry → CacheEntryType :=
  fun _ => CacheEntryType.SystemPrompt

/-- A KV entry whose key data matches only the system-prompt pattern,
with importance 0.5 (below the 0.7 preservation threshold) and a value
size inside the extractor's `[10, 10000]` window. -/
def cexKVEntry : KVEntry :=
  { key_hash := strOf "k1"
    key_data := some (strOf "you are helping here")
    value_data := strOf "abcdefghijkl"
    key_type := strOf "attention_key"
    layer_index := 0
    head_index := none
    importance_score := 1/2
    access_count := 0
    last_accessed := 0 }

/-- The extracted form of `cexKVEntry` (classified `SystemPrompt`). -/
def cexExtracted : ExtractedCacheEntry :=
  { entry_type := CacheEntryType.SystemPrompt
    key_hash := cexKVEntry.key_hash
    key_data := cexKVEntry.key_data
    value_data := cexKVEntry.value_data
    layer_index := cexKVEntry.layer_index
    head_index := cexKVEntry.head_index
    importance_score := cexKVEntry.importance_score
    access_count := cexKVEntry.access_count
    keywords := scorer_extract_keywords cexKVEntry.key_data }

/-- A high-importance (0.9) variant of `cexKVEntry`. -/
def witKVEntry : KVEntry := { cexKVEntry with importance_score := 9/10 }

/-- The extracted form of `witKVEntry` (classified `SystemPrompt`). -/
def witExtracted : ExtractedCacheEntry :=
  { entry_type := CacheEntryType.SystemPrompt
    key_hash := witKVEntry.key_hash
    key_data := witKVEntry.key_data
    value_data := witKVEntry.value_data
    layer_index := witKVEntry.layer_index
    head_index := witKVEntry.head_index
    importance_score := witKVEntry.importance_score
    access_count := witKVEntry.access_count
    keywords := scorer_extract_keywords witKVEntry.key_data }

/-- A retrieval plan asking for keyword search on two topics over
tier 3, with `max_messages = 10`. -/
def cexPlanTwoTopics : RetrievalPlan :=
  { retrievalPlanDefault with
    needs_retrieval := true
    use_tier3 := true
    keyword_search := true
    max_messages := 10
    search_topics := [strOf "alpha", strOf "beta"] }

/-- A stored message row used by the tier-3 store theorems. -/
def cexStoredRow : StoredMessage :=
  { id := 7
    session_id := strOf "s1"
    message_index := 0
    role := strOf "user"
    content := strOf "hello there"
    tokens := 2
    timestamp := 0
    importance_score := 5/10
    embedding_generated := false }

/-! # Theorems -/

/-- C4, counterexample: with cache management disabled but memory usage
60/100 ≥ 0.6, `process_conversation` still performs a memory-threshold
clear — `should_clear_by_memory` never consults `enabled`, contradicting
the claimed `enabled && current/max ≥ memory_threshold_percent`. -/
theorem process_clear_decision_cex :
    ({ kvCacheConfigDefault with enabled := false } : KVCacheConfig).enabled = false ∧
    process_clear_decision { kvCacheConfigDefault with enabled := false } 0 60 100 =
      some ClearReason.MemoryThreshold := by
  refine ⟨rfl, ?_⟩
  unfold process_clear_decision should_clear_by_conversation should_clear_by_memory
  norm_num [kvCacheConfigDefault]

/-- C4, amended: in `process_conversation` a memory-threshold clear
happens iff `max_cache_size_bytes > 0`, the usage fraction reaches
`memory_threshold_percent` and the conversation-count condition does not
also hold (`enabled` is not consulted); whenever the conversation-count
condition holds, the clear reason is `ConversationLimit`. -/
theorem process_clear_decision_spec (cfg : KVCacheConfig) (count cur mx : Nat) :
    (process_clear_decision cfg count cur mx = some ClearReason.MemoryThreshold ↔
      (0 < mx ∧ cfg.memory_threshold_percent ≤ (cur : ℚ) / (mx : ℚ) ∧
        count + 1 < cfg.clear_after_conversations)) ∧
    (process_clear_decision cfg count cur mx = some ClearReason.ConversationLimit ↔
      cfg.clear_after_conversations ≤ count + 1) := by
  unfold process_clear_decision should_clear_by_conversation should_clear_by_memory
  by_cases hc : cfg.clear_after_conversations ≤ count + 1
  · have h1 : ¬(count + 1 < cfg.clear_after_conversations) := by omega
    simp [hc, h1, ge_iff_le]
  · by_cases hm : mx = 0
    · have h1 : ¬(0 < mx) := by omega
      simp [hc, hm, h1, ge_iff_le]
    · by_cases ht : cfg.memory_threshold_percent ≤ (cur : ℚ) / (mx : ℚ)
      · have h1 : count + 1 < cfg.clear_after_conversations := by omega
        simp [hc, hm, ht, ge_iff_le, Nat.pos_of_ne_zero hm, h1]
      · simp [hc, hm, ht, ge_iff_le]

/-- C5, counterexample: with two search topics, plan execution issues a
single tier-manager query (for the first topic, with
`limit_per_topic = 10 / 2 = 5`), not one query per topic. -/
theorem execute_plan_tier3_cex :
    cexPlanTwoTopics.search_topics.length = 2 ∧
    (execute_plan_tier3 [] [] cexPlanTwoTopics).2 = [(strOf "alpha", 5)] := by
  constructor <;> decide

/-- C5, amended: when `use_tier3`, `keyword_search` and a non-empty
topic list all hold, plan execution queries the tier manager for the
FIRST topic only (later topics would be tried only after a storage
error), with `limit_per_topic = max_messages / topics_count` computed
over the whole list, and merges that topic's matches with the semantic
result set by message id — semantic rows first and taking precedence,
keyword rows only filling gaps. -/
theorem execute_plan_tier3_first_topic (store semantic_results : List StoredMessage)
    (plan : RetrievalPlan) (t : Str) (ts : List Str)
    (h3 : plan.use_tier3 = true) (hk : plan.keyword_search = true)
    (ht : plan.search_topics = t :: ts) :
    execute_plan_tier3 store semantic_results plan =
      (some (semantic_results ++
        (search_tier3_content store t (plan.max_messages / (t :: ts).length)).filter
          (fun m => ¬(semantic_results.map (fun m => m.id)).contains m.id)),
       [(t, plan.max_messages / (t :: ts).length)]) := by
  unfold execute_plan_tier3
  rw [h3, hk, ht]
  simp only [if_true, List.isEmpty_cons, Bool.not_false, Bool.and_self, if_pos]
  have hmax : max (t :: ts).length 1 = (t :: ts).length := by
    simp [Nat.max_eq_left, Nat.succ_le_iff]
  rw [hmax]

/-- C5, witness for `execute_plan_tier3_first_topic` at the concrete
two-topic plan with empty store and empty semantic set. -/
theorem execute_plan_tier3_first_topic_witness :
    cexPlanTwoTopics.use_tier3 = true ∧ cexPlanTwoTopics.keyword_search = true ∧
    cexPlanTwoTopics.search_topics = [strOf "alpha", strOf "beta"] ∧
    execute_plan_tier3 [] [] cexPlanTwoTopics =
      (some (([] : List StoredMessage) ++
        (search_tier3_content [] (strOf "alpha")
            (cexPlanTwoTopics.max_messages / ((strOf "alpha") :: [strOf "beta"]).length)).filter
          (fun m => ¬(([] : List StoredMessage).map (fun m => m.id)).contains m.id)),
       [(strOf "alpha",
         cexPlanTwoTopics.max_messages / ((strOf "alpha") :: [strOf "beta"]).length)]) :=
  ⟨rfl, rfl, rfl,
    execute_plan_tier3_first_topic [] [] cexPlanTwoTopics (strOf "alpha") [strOf "beta"]
      rfl rfl rfl⟩

/-- C6: storing messages that are all `(role, content)`-duplicates of
already-stored rows of a session with at most 10000 messages leaves the
message store unchanged (the dedup filter removes every input, so no
batch insert happens). -/
theorem store_tier3_dedup_noop (enable : Bool) (store : List StoredMessage)
    (messages : List Message) (sid : Str) (nid now : ℤ)
    (hlen : store.length ≤ 10000)
    (hdup : ∀ m ∈ messages, ∃ e ∈ store, e.role = m.role ∧ e.content = m.content) :
    store_tier3_content enable store messages sid nid now = store := by
  unfold store_tier3_content
  split
  · rfl
  · have htake : store.take 10000 = store := List.take_of_length_le hlen
    have hfilter : messages.filter
        (fun nm => !store.any
          (fun e => e.content == nm.content && e.role == nm.role)) = [] := by
      rw [List.filter_eq_nil_iff]
      intro m hm
      obtain ⟨e, he, hrole, hcontent⟩ := hdup m hm
      simp only [Bool.not_eq_true', Bool.not_eq_false, List.any_eq_true]
      exact ⟨e, he, by simp [hrole, hcontent]⟩
    simp only [htake, hfilter]
    simp

/-- C6, witness for `store_tier3_dedup_noop`: re-storing a message with
the same role and content as the single stored row is a no-op. -/
theorem store_tier3_dedup_noop_witness :
    [cexStoredRow].length ≤ 10000 ∧
    store_tier3_content true [cexStoredRow] [⟨strOf "user", strOf "hello there"⟩]
        (strOf "s1") 8 5 = [cexStoredRow] :=
  ⟨by decide,
   store_tier3_dedup_noop true [cexStoredRow] [⟨strOf "user", strOf "hello there"⟩]
     (strOf "s1") 8 5 (by decide) (by decide)⟩

/-- C9: the first `update_engagement` call on a key absent from the
engagement map initializes it at 0.3 before adding the increment and
clamping, so the stored value is 0.45 after a retrieval update and 0.35
after a store update (with the default scoring configuration). -/
theorem update_engagement_first_value (m : List (Str × ℚ)) (k : Str) (b : Bool)
    (habs : ∀ kv ∈ m, kv.1 ≠ k) :
    engagementOf (update_engagement cacheScoringConfigDefault m k b) k =
      some (if b then 9/20 else 7/20) := by
  have hfind : ∀ (F : Str × ℚ → Str × ℚ), (∀ kv, (F kv).1 = kv.1) →
      ∀ (l : List (Str × ℚ)), (∀ kv ∈ l, kv.1 ≠ k) → ∀ (v : ℚ),
      ((l ++ [(k, v)]).map F).find? (fun kv => kv.1 == k) = some (F (k, v)) := by
    intro F hF l
    induction l with
    | nil =>
      intro _ v
      simp [List.find?, hF (k, v)]
    | cons hd tl ih =>
      intro hl v
      have hhd : ((F hd).1 == k) = false := by
        rw [hF hd]
        simpa using hl hd (by simp)
      simp only [List.cons_append, List.map_cons, List.find?_cons, hhd, cond_false]
      exact ih (fun kv hkv => hl kv (by simp [hkv])) v
  have hany : (m.any fun kv => kv.1 == k) = false := by
    simp only [List.any_eq_false]
    intro kv hkv
    simpa using habs kv hkv
  unfold update_engagement engagementOf
  rw [hany]
  simp only [Bool.false_eq_true, if_false]
  rw [hfind _ (by intro kv; split <;> rfl) m habs]
  cases b <;> simp [cacheScoringConfigDefault] <;> norm_num [min_def, max_def]

/-- C9, witness for `update_engagement_first_value`: first update on a
fresh key of the empty map stores 0.45 (retrieved) and 0.35 (stored). -/
theorem update_engagement_first_value_witness :
    engagementOf (update_engagement cacheScoringConfigDefault [] (strOf "key1") true)
        (strOf "key1") = some (9/20) ∧
    engagementOf (update_engagement cacheScoringConfigDefault [] (strOf "key1") false)
        (strOf "key1") = some (7/20) :=
  ⟨by simpa using update_engagement_first_value [] (strOf "key1") true (by simp),
   by simpa using update_engagement_first_value [] (strOf "key1") false (by simp)⟩

/-- C7: starting from the empty engagement map, after any sequence of
`update_engagement` calls every value in the map lies in
`[min_engagement, max_engagement]` (for any configuration with
`0 ≤ min_engagement ≤ max_engagement` and decay factor in `[0, 1]`,
which the default configuration satisfies). -/
theorem engagement_bounds (cfg : CacheScoringConfig)
    (h0 : 0 ≤ cfg.min_engagement) (h1 : cfg.min_engagement ≤ cfg.max_engagement)
    (h3 : cfg.engagement_decay ≤ 1) (ops : List (Str × Bool)) :
    ∀ kv ∈ runEngagement cfg ops,
      cfg.min_engagement ≤ kv.2 ∧ kv.2 ≤ cfg.max_engagement := by
  have step : ∀ (m : List (Str × ℚ)) (key : Str) (b : Bool),
      (∀ kv ∈ m, cfg.min_engagement ≤ kv.2 ∧ kv.2 ≤ cfg.max_engagement) →
      ∀ kv ∈ update_engagement cfg m key b,
        cfg.min_engagement ≤ kv.2 ∧ kv.2 ≤ cfg.max_engagement := by
    intro m key b hm kv hkv
    unfold update_engagement at hkv
    simp only [List.mem_map] at hkv
    obtain ⟨kv0, hkv0, rfl⟩ := hkv
    by_cases hk : (kv0.1 == key) = true
    · simp only [hk, if_true]
      exact ⟨le_max_right _ _, max_le (min_le_right _ _) h1⟩
    · simp only [hk, Bool.false_eq_true, if_false]
      have hkv0m : kv0 ∈ m := by
        by_cases hmem : (m.any fun kv => kv.1 == key) = true
        · simpa [hmem] using hkv0
        · rcases (by simpa [hmem] using hkv0 : kv0 ∈ m ∨ kv0 = (key, 3/10)) with h | h
          · exact h
          · exact absurd (by simp [h]) hk
      obtain ⟨hlo, hhi⟩ := hm kv0 hkv0m
      refine ⟨le_max_right _ _, max_le ?_ h1⟩
      calc kv0.2 * cfg.engagement_decay ≤ kv0.2 * 1 := by
            apply mul_le_mul_of_nonneg_left h3 (le_trans h0 hlo)
        _ = kv0.2 := mul_one _
        _ ≤ cfg.max_engagement := hhi
  suffices h : ∀ (m : List (Str × ℚ)),
      (∀ kv ∈ m, cfg.min_engagement ≤ kv.2 ∧ kv.2 ≤ cfg.max_engagement) →
      ∀ kv ∈ ops.foldl (fun m op => update_engagement cfg m op.1 op.2) m,
        cfg.min_engagement ≤ kv.2 ∧ kv.2 ≤ cfg.max_engagement by
    exact h [] (by simp)
  induction ops with
  | nil => intro m hm; simpa using hm
  | cons op rest ih =>
    intro m hm
    simp only [List.foldl_cons]
    exact ih _ (step m op.1 op.2 hm)

/-- C7, witness for `engagement_bounds`: the default configuration
satisfies the hypotheses, and after three updates every stored value is
within `[0.1, 1]`. -/
theorem engagement_bounds_witness :
    (0 ≤ cacheScoringConfigDefault.min_engagement ∧
     cacheScoringConfigDefault.min_engagement ≤ cacheScoringConfigDefault.max_engagement ∧
     cacheScoringConfigDefault.engagement_decay ≤ 1) ∧
    ∀ kv ∈ runEngagement cacheScoringConfigDefault
        [(strOf "k1", true), (strOf "k2", false), (strOf "k1", true)],
      cacheScoringConfigDefault.min_engagement ≤ kv.2 ∧
      kv.2 ≤ cacheScoringConfigDefault.max_engagement :=
  ⟨⟨by norm_num [cacheScoringConfigDefault], by norm_num [cacheScoringConfigDefault],
    by norm_num [cacheScoringConfigDefault]⟩,
   engagement_bounds cacheScoringConfigDefault
     (by norm_num [cacheScoringConfigDefault]) (by norm_num [cacheScoringConfigDefault])
     (by norm_num [cacheScoringConfigDefault])
     [(strOf "k1", true), (strOf "k2", false), (strOf "k1", true)]⟩

/-- C10: in `retrieve_context`, snapshots (tier 2) are searched exactly
when tier 1 produced fewer than five results, the message store (tier 3)
exactly when fewer than three results have accumulated after tiers 1 and
2, and when tier 1 alone yields five or more matches the search stops at
`searched_tiers = [1]`. -/
theorem retrieve_context_tier_gating (entries : List KVEntry)
    (snapshots : List (List KVEntry)) (store : List StoredMessage) (query : Str) :
    (2 ∈ (retrieve_context entries snapshots store query).2 ↔
      (if entries.isEmpty then ([] : List RetrievedEntry)
       else search_tier1 entries (manager_extract_keywords query)).length < 5) ∧
    (3 ∈ (retrieve_context entries snapshots store query).2 ↔
      (if entries.isEmpty then ([] : List RetrievedEntry)
       else search_tier1 entries (manager_extract_keywords query)).length +
      (if (if entries.isEmpty then ([] : List RetrievedEntry)
           else search_tier1 entries (manager_extract_keywords query)).length < 5 then
         search_tier2 snapshots (manager_extract_keywords query)
       else []).length < 3) ∧
    ((retrieve_context entries snapshots store query).2 = [1] ↔
      5 ≤ (if entries.isEmpty then ([] : List RetrievedEntry)
       else search_tier1 entries (manager_extract_keywords query)).length) := by
  by_cases he : entries.isEmpty
  · by_cases h3 : (search_tier2 snapshots (manager_extract_keywords query)).length < 3
    · simp [retrieve_context, he, h3]
    · simp [retrieve_context, he, h3]
  · by_cases h5 : (search_tier1 entries (manager_extract_keywords query)).length < 5
    · by_cases h3 : (search_tier1 entries (manager_extract_keywords query)).length +
          (search_tier2 snapshots (manager_extract_keywords query)).length < 3
      · simp [retrieve_context, he, h5, h3]
      · simp [retrieve_context, he, h5, h3]
    · have h3 : ¬((search_tier1 entries (manager_extract_keywords query)).length < 3) := by
        omega
      simp [retrieve_context, he, h5, h3]
      omega

/-- The squared-norm sum is nonnegative (helper for C8). -/
theorem sumSq_nonneg (a : List ℝ) : 0 ≤ ((a.map fun x => x * x)).sum := by
  apply List.sum_nonneg
  intro y hy
  obtain ⟨x, _, rfl⟩ := List.mem_map.mp hy
  exact mul_self_nonneg x

/-- A vector with a nonzero component has positive squared norm (helper for C8). -/
theorem sumSq_pos (a : List ℝ) (h : ∃ y ∈ a, y ≠ 0) :
    0 < ((a.map fun x => x * x)).sum := by
  induction a with
  | nil => simp at h
  | cons x xs ih =>
    simp only [List.map_cons, List.sum_cons]
    by_cases hx : x = 0
    · subst hx
      have h' : ∃ y ∈ xs, y ≠ 0 := by
        obtain ⟨y, hy, h0⟩ := h
        rcases List.mem_cons.mp hy with rfl | hm
        · exact absurd rfl h0
        · exact ⟨y, hm, h0⟩
      simpa using ih h'
    · exact add_pos_of_pos_of_nonneg (mul_self_pos.mpr hx) (sumSq_nonneg xs)

/-- An all-zero vector has zero squared norm (helper for C8). -/
theorem sumSq_zero (a : List ℝ) (h : ∀ y ∈ a, y = 0) :
    ((a.map fun x => x * x)).sum = 0 := by
  apply List.sum_eq_zero
  intro y hy
  obtain ⟨x, hx, rfl⟩ := List.mem_map.mp hy
  rw [h x hx]
  ring

/-- The dot product of a vector with itself is its squared norm (helper for C8). -/
theorem dot_self (a : List ℝ) :
    ((a.zip a).map fun p => p.1 * p.2).sum = ((a.map fun x => x * x)).sum := by
  induction a with
  | nil => rfl
  | cons x xs ih => simp [ih]

/-- The dot product of a vector with its negation (helper for C8). -/
theorem dot_neg_self (a : List ℝ) :
    ((a.zip (a.map fun x => -x)).map fun p => p.1 * p.2).sum =
      -((a.map fun x => x * x)).sum := by
  induction a with
  | nil => simp
  | cons x xs ih =>
    simp only [List.map_cons, List.zip_cons_cons, List.sum_cons, ih]
    ring

/-- Negating every component preserves the squared norm (helper for C8). -/
theorem sumSq_neg (a : List ℝ) :
    (((a.map fun x => -x).map fun x => x * x)).sum = ((a.map fun x => x * x)).sum := by
  induction a with
  | nil => rfl
  | cons x xs ih =>
    simp only [List.map_cons, List.sum_cons, ih, neg_mul_neg]

/-- The dot product is symmetric (helper for C8). -/
theorem dot_comm (a b : List ℝ) :
    ((a.zip b).map fun p => p.1 * p.2).sum = ((b.zip a).map fun p => p.1 * p.2).sum := by
  induction a generalizing b with
  | nil => cases b <;> simp
  | cons x xs ih =>
    cases b with
    | nil => simp
    | cons y ys =>
      simp only [List.zip_cons_cons, List.map_cons, List.sum_cons, ih ys]
      ring_nf

/-- C8, counterexample: on the zero vector, `cosine_similarity(x, -x)`
returns 0, not −1 (the zero-norm guard fires first), so the unqualified
clause `similarity(x,-x) = -1` fails at `x = [0]`. -/
theorem cosine_similarity_cex :
    cosine_similarity [(0 : ℝ)] ([(0 : ℝ)].map fun x => -x) = 0 ∧ (0 : ℝ) ≠ -1 := by
  constructor
  · simp [cosine_similarity]
  · norm_num

/-- C8, amended: `cosine_similarity(x,x) = 1` for non-zero `x`;
`cosine_similarity(x,-x) = -1` for NON-ZERO `x` (a zero vector hits the
zero-norm guard and yields 0 instead); the function is symmetric on
equal-length vectors; and it returns 0 whenever either input is all
zeros. -/
theorem cosine_similarity_spec :
    (∀ a : List ℝ, (∃ y ∈ a, y ≠ 0) → cosine_similarity a a = 1) ∧
    (∀ a : List ℝ, (∃ y ∈ a, y ≠ 0) →
      cosine_similarity a (a.map fun x => -x) = -1) ∧
    (∀ a b : List ℝ, a.length = b.length →
      cosine_similarity a b = cosine_similarity b a) ∧
    (∀ a b : List ℝ, a.length = b.length →
      ((∀ y ∈ a, y = 0) ∨ (∀ y ∈ b, y = 0)) → cosine_similarity a b = 0) := by
  refine ⟨?_, ?_, ?_, ?_⟩
  · intro a h
    simp only [cosine_similarity]
    rw [if_neg (by simp)]
    have hpos := sumSq_pos a h
    have hsq : Real.sqrt ((a.map fun x => x * x)).sum ≠ 0 :=
      ne_of_gt (Real.sqrt_pos.mpr hpos)
    rw [if_neg (by push_neg; exact ⟨hsq, hsq⟩)]
    rw [dot_self, Real.mul_self_sqrt hpos.le]
    exact div_self (ne_of_gt hpos)
  · intro a h
    simp only [cosine_similarity]
    rw [if_neg (by simp)]
    have hpos := sumSq_pos a h
    have hsq : Real.sqrt ((a.map fun x => x * x)).sum ≠ 0 :=
      ne_of_gt (Real.sqrt_pos.mpr hpos)
    rw [sumSq_neg]
    rw [if_neg (by push_neg; exact ⟨hsq, hsq⟩)]
    rw [dot_neg_self, Real.mul_self_sqrt hpos.le, neg_div, div_self (ne_of_gt hpos)]
  · intro a b hab
    simp only [cosine_similarity]
    rw [if_neg (show ¬(a.length ≠ b.length) by simp [hab]),
        if_neg (show ¬(b.length ≠ a.length) by simp [hab])]
    rw [dot_comm, mul_comm]
    by_cases hz : Real.sqrt ((List.map (fun x => x * x) a)).sum = 0 ∨
        Real.sqrt ((List.map (fun x => x * x) b)).sum = 0
    · rw [if_pos hz, if_pos (Or.symm hz)]
    · rw [if_neg hz, if_neg (fun h => hz (Or.symm h))]
  · intro a b hab h
    simp only [cosine_similarity]
    rw [if_neg (by simp [hab])]
    rcases h with h | h
    · rw [sumSq_zero a h, Real.sqrt_zero, if_pos (Or.inl rfl)]
    · rw [sumSq_zero b h, Real.sqrt_zero, if_pos (Or.inr rfl)]

/-- C8, witness for `cosine_similarity_spec` on concrete vectors. -/
theorem cosine_similarity_spec_witness :
    cosine_similarity [(1 : ℝ)] [(1 : ℝ)] = 1 ∧
    cosine_similarity [(1 : ℝ)] ([(1 : ℝ)].map fun x => -x) = -1 ∧
    cosine_similarity [(1 : ℝ), 2] [(2 : ℝ), 1] =
      cosine_similarity [(2 : ℝ), 1] [(1 : ℝ), 2] ∧
    cosine_similarity [(0 : ℝ), 0] [(3 : ℝ), 4] = 0 :=
  ⟨cosine_similarity_spec.1 [1] ⟨1, by simp⟩,
   cosine_similarity_spec.2.1 [1] ⟨1, by simp⟩,
   cosine_similarity_spec.2.2.1 [1, 2] [2, 1] (by simp),
   cosine_similarity_spec.2.2.2 [0, 0] [3, 4] (by simp) (Or.inl (by simp))⟩

/-- The token-volume trigger of the planner, spelled out (helper for C3):
it requires MORE THAN ONE message in addition to the token estimate
exceeding the budget. -/
theorem planner_needs_retrieval_iff (messages : List Message) (max_tokens : Nat) :
    planner_needs_retrieval messages max_tokens = true ↔
      (1 < messages.length ∧ max_tokens < (messages.map tokenLen).sum) := by
  unfold planner_needs_retrieval
  split
  · rename_i h
    simp only [Bool.false_eq_true, false_iff]
    omega
  · rename_i h
    simp only [decide_eq_true_eq, gt_iff_lt]
    omega

/-- C3, counterexample: a single oversized message (8 characters, 2
estimated tokens, budget 1) does not trigger retrieval — the planner's
token check returns `false` whenever at most one message is present, so
`needs_retrieval` is `false` although the estimated token count exceeds
`max_context_tokens` (and no past reference or cross-session trigger is
involved). -/
theorem create_plan_needs_retrieval_cex :
    (create_plan [⟨strOf "user", strOf "aaaaaaaa"⟩] 1 none false false false).needs_retrieval
      = false ∧
    1 < (([⟨strOf "user", strOf "aaaaaaaa"⟩] : List Message).map tokenLen).sum := by
  constructor
  · decide
  · decide

/-- C3, amended: `create_plan` returns `needs_retrieval = true` iff
(a) `current_messages` has MORE THAN ONE message and its estimated token
count (`len/4` summed) exceeds `max_context_tokens`, or (b) past
references are detected in the user query or supplied by the caller, or
(c) the query is a cross-session query. -/
theorem create_plan_needs_retrieval_iff (msgs : List Message) (maxTok : Nat)
    (q : Option Str) (hpr hs hdb : Bool) :
    ((create_plan msgs maxTok q hpr hs hdb).needs_retrieval = true ↔
      ((1 < msgs.length ∧ maxTok < (msgs.map tokenLen).sum) ∨
       ((match q with
         | some s => has_past_references_in_text s = true
         | none => False) ∨ hpr = true) ∨
       (match q with
         | some s => is_cross_session_query s = true
         | none => False))) := by
  have hiff := planner_needs_retrieval_iff msgs maxTok
  by_cases hvol : 1 < msgs.length ∧ maxTok < (msgs.map tokenLen).sum
  · have hpn : planner_needs_retrieval msgs maxTok = true := hiff.mpr hvol
    cases q with
    | none =>
      by_cases hp : hpr = true <;>
        simp [create_plan, retrievalPlanDefault, hpn, hp, hvol,
          apply_ite RetrievalPlan.needs_retrieval, apply_ite RetrievalPlan.search_topics]
    | some s =>
      by_cases hc : is_cross_session_query s = true <;>
        by_cases hrf : has_past_references_in_text s = true <;>
        by_cases hp : hpr = true <;>
        simp [create_plan, retrievalPlanDefault, hpn, hp, hc, hrf, hvol,
          apply_ite RetrievalPlan.needs_retrieval, apply_ite RetrievalPlan.search_topics]
  · have hpn : planner_needs_retrieval msgs maxTok = false :=
      Bool.not_eq_true _ ▸ (fun h => hvol (hiff.mp h))
    cases q with
    | none =>
      by_cases hp : hpr = true <;>
        simp [create_plan, retrievalPlanDefault, hpn, hp, hvol,
          apply_ite RetrievalPlan.needs_retrieval, apply_ite RetrievalPlan.search_topics]
    | some s =>
      by_cases hc : is_cross_session_query s = true <;>
        by_cases hrf : has_past_references_in_text s = true <;>
        by_cases hp : hpr = true <;>
        simp [create_plan, retrievalPlanDefault, hpn, hp, hc, hrf, hvol,
          apply_ite RetrievalPlan.needs_retrieval, apply_ite RetrievalPlan.search_topics]

/-- C2, counterexample: a `SystemPrompt` candidate entry (value size
within the extractor window) with importance 0.5 < 0.7 is NOT in
`entries_to_keep` after a clear under the default configuration
(`preserve_system_prompts = true`): the preservation filter rejects
every entry below `min_importance_to_preserve` before the type-based
rules are consulted. -/
theorem clear_entries_to_keep_cex :
    extract_entries cacheExtractorConfigDefault classifySystemOnly [cexKVEntry] =
      [cexExtracted] ∧
    cexExtracted.entry_type = CacheEntryType.SystemPrompt ∧
    kvCacheConfigDefault.preserve_system_prompts = true ∧
    clear_entries_to_keep kvCacheConfigDefault cacheExtractorConfigDefault
      classifySystemOnly [cexKVEntry] = [] := by
  refine ⟨rfl, rfl, rfl, ?_⟩
  have hcond : cexExtracted.importance_score <
      kvCacheConfigDefault.min_importance_to_preserve := by
    norm_num [cexExtracted, cexKVEntry, kvCacheConfigDefault]
  simp [clear_entries_to_keep, filter_preserved_entries, hcond,
    show extract_entries cacheExtractorConfigDefault classifySystemOnly [cexKVEntry] =
      [cexExtracted] from rfl]

/-- C2, amended: after a clear, `entries_to_keep` contains every
CANDIDATE entry (value size within `[min_value_size, max_value_size]`)
that either scores at least `min_importance_to_preserve · 1.2` (with a
nonnegative threshold), or scores at least `min_importance_to_preserve`
and is a `SystemPrompt` under `preserve_system_prompts`, a `CodeBlock`
under `preserve_code_entries`, an `ImportantConcept`, or an
`AttentionKey`/`AttentionValue`; entries below
`min_importance_to_preserve` are always dropped. -/
theorem clear_entries_to_keep_spec (cfg : KVCacheConfig) (ecfg : CacheExtractorConfig)
    (classify : KVEntry → CacheEntryType) (entries : List KVEntry)
    (e : ExtractedCacheEntry)
    (hmin : 0 ≤ cfg.min_importance_to_preserve)
    (he : e ∈ extract_entries ecfg classify entries)
    (hkeep : cfg.min_importance_to_preserve * (12/10) ≤ e.importance_score ∨
      (cfg.min_importance_to_preserve ≤ e.importance_score ∧
        ((e.entry_type = CacheEntryType.SystemPrompt ∧ cfg.preserve_system_prompts = true) ∨
         (e.entry_type = CacheEntryType.CodeBlock ∧ cfg.preserve_code_entries = true) ∨
         e.entry_type = CacheEntryType.ImportantConcept ∨
         e.entry_type = CacheEntryType.AttentionKey ∨
         e.entry_type = CacheEntryType.AttentionValue))) :
    e ∈ clear_entries_to_keep cfg ecfg classify entries := by
  unfold clear_entries_to_keep filter_preserved_entries
  apply List.mem_filter.mpr
  refine ⟨he, ?_⟩
  have hscore : cfg.min_importance_to_preserve ≤ e.importance_score := by
    rcases hkeep with h | ⟨h, _⟩
    · nlinarith
    · exact h
  rw [if_neg (not_lt.mpr hscore)]
  rcases hkeep with h12 | ⟨hge, htype⟩
  · cases het : e.entry_type <;> simp [ge_iff_le, h12]
  · rcases htype with ⟨ht, hps⟩ | ⟨ht, hpc⟩ | ht | ht | ht <;>
      rw [ht] <;> simp [*]

/-- C2, witness for `clear_entries_to_keep_spec`: a `SystemPrompt`
candidate with importance 0.9 ≥ 0.7 is kept under the default
configuration. -/
theorem clear_entries_to_keep_spec_witness :
    (0 : ℚ) ≤ kvCacheConfigDefault.min_importance_to_preserve ∧
    witExtracted ∈ extract_entries cacheExtractorConfigDefault classifySystemOnly
      [witKVEntry] ∧
    witExtracted ∈ clear_entries_to_keep kvCacheConfigDefault cacheExtractorConfigDefault
      classifySystemOnly [witKVEntry] :=
  ⟨by norm_num [kvCacheConfigDefault],
   by
     rw [show extract_entries cacheExtractorConfigDefault classifySystemOnly [witKVEntry] =
       [witExtracted] from rfl]
     exact List.mem_singleton_self _,
   clear_entries_to_keep_spec kvCacheConfigDefault cacheExtractorConfigDefault
     classifySystemOnly [witKVEntry] witExtracted
     (by norm_num [kvCacheConfigDefault])
     (by
       rw [show extract_entries cacheExtractorConfigDefault classifySystemOnly [witKVEntry] =
         [witExtracted] from rfl]
       exact List.mem_singleton_self _)
     (Or.inr ⟨by norm_num [witExtracted, witKVEntry, cexKVEntry, kvCacheConfigDefault],
       Or.inl ⟨rfl, rfl⟩⟩)⟩

/-- Trimming invariant (helper for C1): starting from a spent budget
`total ≤ maxT`, the kept messages fit in the remainder. -/
theorem trimAux_le (maxT : Nat) (l : List Message) : ∀ (total : Nat), total ≤ maxT →
    total + tokenSum (trimAux maxT total l) ≤ maxT := by
  induction l with
  | nil =>
    intro total h
    simpa [trimAux, tokenSum] using h
  | cons m rest ih =>
    intro total h
    unfold trimAux
    split
    · exact ih total h
    · rename_i hkeep
      have h' : total + tokenLen m ≤ maxT := by omega
      have := ih (total + tokenLen m) h'
      simp only [tokenSum, List.map_cons, List.sum_cons] at this ⊢
      omega

/-- The trimmed context fits the token budget (helper for C1). -/
theorem trim_to_token_limit_le (cfg : ContextBuilderConfig) (l : List Message) :
    tokenSum (trim_to_token_limit cfg l) ≤ cfg.max_total_tokens := by
  have := trimAux_le cfg.max_total_tokens l 0 (Nat.zero_le _)
  simpa [trim_to_token_limit] using this

/-- `add_bridging` either returns its input or inserts exactly one
system transition-bridge message (helper for C1). -/
theorem add_bridging_cases (cfg : ContextBuilderConfig) (l : List Message)
    (s : Option (List DbSummary)) :
    add_bridging cfg l s = l ∨
      ∃ i n, add_bridging cfg l s = insertAt ⟨strOf "system", bridgeText n⟩ i l := by
  simp only [add_bridging]
  split
  · exact Or.inl rfl
  · split
    · split
      · exact Or.inr ⟨_, _, rfl⟩
      · exact Or.inl rfl
    · exact Or.inl rfl

/-- C1, amended: for every builder input, the output is the trimmed
context — whose `len/4` token sum never exceeds `max_total_tokens` —
with at most one system transition-bridge message inserted AFTER the
trim; the token budget therefore holds for everything except that
bridge message (and can be exceeded by exactly its tokens, see the
counterexample). -/
theorem build_context_token_budget (cfg : ContextBuilderConfig) (now : ℤ)
    (current : List Message) (tier1 : Option (List Message))
    (tier2 : Option (List DbSummary)) (tier3 : Option (List StoredMessage))
    (cross : Option (List StoredMessage)) (user_query : Option Str) :
    ∃ L, tokenSum L ≤ cfg.max_total_tokens ∧
      (build_context cfg now current tier1 tier2 tier3 cross user_query = L ∨
       ∃ i n, build_context cfg now current tier1 tier2 tier3 cross user_query =
         insertAt ⟨strOf "system", bridgeText n⟩ i L) := by
  have key : ∀ (X : List Message),
      ∃ L, tokenSum L ≤ cfg.max_total_tokens ∧
        (add_bridging cfg (trim_to_token_limit cfg X) tier2 = L ∨
         ∃ i n, add_bridging cfg (trim_to_token_limit cfg X) tier2 =
           insertAt ⟨strOf "system", bridgeText n⟩ i L) := by
    intro X
    exact ⟨trim_to_token_limit cfg X, trim_to_token_limit_le cfg X,
      add_bridging_cases cfg _ tier2⟩
  exact key _

/-- C1, counterexample: with a 30-token budget, a single 72-character
user message, and one matching 37-character summary, the built context
sums to 43 estimated tokens — the transition bridge inserted after
trimming pushes the output past `max_total_tokens`. -/
theorem build_context_token_budget_cex :
    cexBuilderCfg.max_total_tokens <
      tokenSum (build_context cexBuilderCfg 0 [cexUserMsg] none (some [cexSummary])
        none none (some (strOf "budget"))) := by
  have htopics : builder_extract_topics [cexUserMsg] = [] := by decide
  have hscore : score_summary_relevance cexSummary [] (some (strOf "budget")) 0 = 4/5 := by
    have hq : List.countP (fun t => containsCL (lowerStr (strOf "budget")) (lowerStr t))
        cexSummary.key_topics = 1 := by decide
    simp only [score_summary_relevance, List.countP_nil, Nat.cast_zero, zero_mul]
    rw [hq]
    norm_num [cexSummary, min_def]
  have hsel : select_relevant_summaries cexBuilderCfg 0 [cexSummary] [cexUserMsg]
      (some (strOf "budget")) = [cexSummary] := by
    simp only [select_relevant_summaries, htopics, List.map_cons, List.map_nil, hscore,
      stableSortBy, insertLe]
    have hmax12 : (⌊(cexBuilderCfg.max_total_tokens : ℚ) *
        cexBuilderCfg.max_summary_frac⌋) = 12 := by
      norm_num [cexBuilderCfg, contextBuilderConfigDefault]
    have hmax : ((⌊(cexBuilderCfg.max_total_tokens : ℚ) *
        cexBuilderCfg.max_summary_frac⌋).toNat) = 12 := by
      rw [hmax12]
      rfl
    have hst : strLen cexSummary.summary_text / 4 = 9 := by decide
    rw [hmax]
    norm_num [summaryGreedy, hst]
  have hprep : prepare_context_with_tier1 cexBuilderCfg [cexUserMsg] none = [cexUserMsg] := by
    have hsel0 : select_recent_messages cexBuilderCfg [cexUserMsg] = [cexUserMsg] := by
      simp only [select_recent_messages]
      rw [if_neg (by simp)]
      have hceil1 : (⌈(([cexUserMsg] : List Message).length : ℚ) *
          cexBuilderCfg.min_current_context_frac⌉) = 1 := by
        rw [show (([cexUserMsg] : List Message).length : ℚ) *
            cexBuilderCfg.min_current_context_frac = 2/5 by
          norm_num [cexBuilderCfg, contextBuilderConfigDefault]]
        rw [Int.ceil_eq_iff]
        norm_num
      have hceil : ((⌈(([cexUserMsg] : List Message).length : ℚ) *
          cexBuilderCfg.min_current_context_frac⌉).toNat) = 1 := by
        rw [hceil1]
        rfl
      rw [hceil]
      decide
    simp only [prepare_context_with_tier1, hsel0]
    decide
  have hadd : add_summaries_to_context cexBuilderCfg 0 [cexUserMsg] [cexSummary] [cexUserMsg]
      (some (strOf "budget")) =
      [summary_to_message cexSummary [cexUserMsg], cexUserMsg] := by
    simp [add_summaries_to_context, hsel, insertAt, summary_to_message]
  have hbc : build_context cexBuilderCfg 0 [cexUserMsg] none (some [cexSummary]) none none
      (some (strOf "budget")) =
      add_bridging cexBuilderCfg (trim_to_token_limit cexBuilderCfg
        (add_summaries_to_context cexBuilderCfg 0
          (prepare_context_with_tier1 cexBuilderCfg [cexUserMsg] none)
          [cexSummary] [cexUserMsg] (some (strOf "budget"))))
        (some [cexSummary]) := rfl
  rw [hbc, hprep, hadd]
  decide

end OffIntel
